import Mathlib

/-!
Shallow embedding of the pyarr request-construction layer
(`src/pyarr/lidarr.py`, `src/pyarr/radarr.py`).

Each client method of `LidarrAPI` / `RadarrAPI` is translated to a pure
Lean function that returns the HTTP request(s) it would issue (or the
local error it raises before any request).  Remote responses are
supplied as explicit environment parameters, since the library passes
them through unchanged.

`BaseArrAPI` (`pyarr/base.py`), `pyarr/exceptions.py`,
`pyarr/models/common.py` and `pyarr/models/lidarr.py` are not under
`src/`; the parts of them that these flows need are modelled from the
spec and marked as such on each definition.
-/

/-- A JSON value, as produced by decoding a response body or built for a
request body.  Python `None`/`bool`/`int`/`str`/`list`/`dict` map to the
corresponding constructors; a dict is an insertion-ordered association
list. -/
inductive JVal where
  | jnull : JVal
  | jbool : Bool → JVal
  | jint : Int → JVal
  | jstr : String → JVal
  | jarr : List JVal → JVal
  | jobj : List (String × JVal) → JVal

/-- A JSON object: an insertion-ordered association list (Python dict). -/
abbrev JObj := List (String × JVal)

/-- Modelled from the spec: the exception taxonomy of
`pyarr/exceptions.py` (not under `src/`), §7 of the spec, plus the two
uncaught Python runtime errors that the flows in `src/` can raise. -/
inductive PyarrErr where
  | missingArgument : String → PyarrErr
  | missingProfile : String → PyarrErr
  | recordNotFound : String → PyarrErr
  | indexError : PyarrErr
  | keyError : PyarrErr
deriving Repr, DecidableEq

/-- HTTP method of a request issued through the base-client helpers. -/
inductive HttpMethod where
  | get : HttpMethod
  | post : HttpMethod
  | put : HttpMethod
  | delete : HttpMethod
deriving Repr, DecidableEq

/-- Modelled from the spec: the request a `BaseArrAPI._get/_post/_put/_delete`
helper (in `pyarr/base.py`, not under `src/`) forwards to the transport:
method, version prefix, path fragment, serialized query parameters and
optional JSON body.  Per §4.1 an omitted / `None` / empty params dict
serializes to no query parameters, so all three are represented as `[]`. -/
structure Request where
  method : HttpMethod
  ver : String
  path : String
  params : List (String × JVal)
  body : Option JVal

/-- `o[k]` lookup on a Python dict (first matching key). -/
def getKey (o : JObj) (k : String) : Option JVal :=
  match o with
  | [] => none
  | (k', v) :: rest => if k' = k then some v else getKey rest k

/-- `o[k] = v` assignment on a Python dict: replace the value at the
(unique) occurrence of the key, keeping its position, otherwise append
the pair at the end. -/
def setKey (o : JObj) (k : String) (v : JVal) : JObj :=
  match o with
  | [] => [(k, v)]
  | (k', w) :: rest => if k' = k then (k, v) :: rest else (k', w) :: setKey rest k v

/-! ## Enumerated constants -/

/-- Radarr sort keys (`pyarr/models/radarr.py`, `RadarrSortKey`): the
closed set of accepted sort-key string values. -/
inductive RadarrSortKey where
  | date | downloadClient | id | indexer | languages | message | modieId
  | moviesSortTitle | path | progress | protocol | quality | ratings
  | title | size | sourcetitle | status | timeleft
deriving Repr, DecidableEq

/-- The string value of each `RadarrSortKey` literal, exactly as listed
in `pyarr/models/radarr.py`. -/
def radarrSortKeyStr : RadarrSortKey → String
  | .date => "date"
  | .downloadClient => "downloadClient"
  | .id => "id"
  | .indexer => "indexer"
  | .languages => "languages"
  | .message => "message"
  | .modieId => "modieId"
  | .moviesSortTitle => "movies.sortTitle"
  | .path => "path"
  | .progress => "progress"
  | .protocol => "protocol"
  | .quality => "quality"
  | .ratings => "ratings"
  | .title => "title"
  | .size => "size"
  | .sourcetitle => "sourcetitle"
  | .status => "status"
  | .timeleft => "timeleft"

/-- Modelled from the spec: `LidarrSortKey` from
`pyarr/models/lidarr.py` is not under `src/`; per §2 it is a closed set
of accepted (non-empty) sort-key string values. -/
inductive LidarrSortKey where
  | albumTitle | artistId | date | downloadClient | quality | progress
  | path | timeleft
deriving Repr, DecidableEq

/-- Modelled from the spec: the string value of each `LidarrSortKey`. -/
def lidarrSortKeyStr : LidarrSortKey → String
  | .albumTitle => "albums.title"
  | .artistId => "artistId"
  | .date => "date"
  | .downloadClient => "downloadClient"
  | .quality => "quality"
  | .progress => "progress"
  | .path => "path"
  | .timeleft => "timeleft"

/-- Modelled from the spec: `PyarrSortDirection` from
`pyarr/models/common.py` is not under `src/`; per §2 it is the closed
set of accepted (non-empty) sort-direction string values. -/
inductive PyarrSortDirection where
  | ascending | defaultDir | descending
deriving Repr, DecidableEq

/-- Modelled from the spec: the string value of each sort direction. -/
def pyarrSortDirectionStr : PyarrSortDirection → String
  | .ascending => "ascending"
  | .defaultDir => "default"
  | .descending => "descending"

/-- Modelled from the spec: `LidarrArtistMonitor` from
`pyarr/models/lidarr.py` is not under `src/`; per §2 it is a closed set
of artist-monitor mode string values. -/
inductive LidarrArtistMonitor where
  | allAlbums | futureAlbums | missingAlbums | existingAlbums
  | firstAlbum | latestAlbum | noneValue
deriving Repr, DecidableEq

/-- Modelled from the spec: the string value of each monitor mode. -/
def lidarrArtistMonitorStr : LidarrArtistMonitor → String
  | .allAlbums => "all"
  | .futureAlbums => "future"
  | .missingAlbums => "missing"
  | .existingAlbums => "existing"
  | .firstAlbum => "first"
  | .latestAlbum => "latest"
  | .noneValue => "none"

/-! ## Query-parameter construction helpers -/

/-- The version prefix of the Lidarr client (`LidarrAPI.__init__`). -/
def verL : String := "/v1"

/-- The version prefix of the Radarr client (`RadarrAPI.__init__`). -/
def verR : String := "/v3"

/-- Embeds `if x: params[k] = x` on an `Optional[int]` argument: `None`
and `0` are falsy and add nothing (Python truthiness). -/
def optIntParam (k : String) (v : Option Int) : List (String × JVal) :=
  match v with
  | some p => if p = 0 then [] else [(k, JVal.jint p)]
  | none => []

/-- Embeds `if x: params[k] = x` on an `Optional[bool]` argument: only
`True` is truthy. -/
def optTrueParam (k : String) (v : Option Bool) : List (String × JVal) :=
  match v with
  | some b => if b then [(k, JVal.jbool b)] else []
  | none => []

/-- Embeds `if x is not None: params[k] = x` on an `Optional[bool]`. -/
def optBoolParam (k : String) (v : Option Bool) : List (String × JVal) :=
  match v with
  | some b => [(k, JVal.jbool b)]
  | none => []

/-- Embeds `if x is not None: params[k] = x` on an `Optional[int]`. -/
def idParam (k : String) (v : Option Int) : List (String × JVal) :=
  match v with
  | some a => [(k, JVal.jint a)]
  | none => []

/-- The exact message of the sort-pair validation error (double space as
in the source). -/
def sortPairMsg : String := "sort_key and sort_dir  must be used together"

/-- Embeds the sort-validation pattern shared by the paginated
endpoints: `if sort_key and sort_dir: params["sortKey"] = ...;
params["sortDirection"] = ... elif sort_key or sort_dir: raise
PyarrMissingArgument(...)`, with Python truthiness (`None` is falsy, an
enum value is truthy iff its string value is non-empty). -/
def sortPairParams {κ δ : Type} (ks : κ → String) (ds : δ → String)
    (sort_key : Option κ) (sort_dir : Option δ) :
    Except PyarrErr (List (String × JVal)) :=
  match sort_key, sort_dir with
  | some k, some d =>
    if ks k ≠ "" ∧ ds d ≠ "" then
      .ok [("sortKey", JVal.jstr (ks k)), ("sortDirection", JVal.jstr (ds d))]
    else if ks k ≠ "" ∨ ds d ≠ "" then .error (.missingArgument sortPairMsg)
    else .ok []
  | some k, none =>
    if ks k ≠ "" then .error (.missingArgument sortPairMsg) else .ok []
  | none, some d =>
    if ds d ≠ "" then .error (.missingArgument sortPairMsg) else .ok []
  | none, none => .ok []

/-- A Python `Union[int, list[int]]` identifier argument, dispatched on
by `isinstance(x, list)` / `isinstance(x, int)`. -/
inductive IntOrList where
  | single : Int → IntOrList
  | many : List Int → IntOrList
deriving Repr, DecidableEq

/-! ## Lidarr endpoint methods (`src/pyarr/lidarr.py`) -/

/-- `LidarrAPI.add_root_folder`: builds `folder_json` (with
`defaultTags or []`, Python truthiness on the list) and POSTs it to
`rootfolder`.  The response pass-through of `_post` is modelled by the
`resp` transport function; the method returns the decoded response
unchanged. -/
def lidarr_add_root_folder (resp : Request → JVal) (name path : String)
    (qualityProfile metadataProfile : Int) (defaultTags : Option (List Int)) :
    Request × JVal :=
  let tags : List Int :=
    match defaultTags with
    | some l => if l.isEmpty then [] else l
    | none => []
  let folder_json : JObj :=
    [("defaultTags", JVal.jarr (tags.map JVal.jint)),
     ("defaultQualityProfileId", JVal.jint qualityProfile),
     ("defaultMetadataProfileId", JVal.jint metadataProfile),
     ("name", JVal.jstr name),
     ("path", JVal.jstr path)]
  let req : Request := ⟨.post, verL, "rootfolder", [], some (.jobj folder_json)⟩
  (req, resp req)

/-- `LidarrAPI.get_wanted`: paginated/sortable wanted list;
`wanted/missing` or `wanted/cutoff`, optional `/{id}` suffix. -/
def lidarr_get_wanted (id_ : Option Int) (page page_size : Option Int)
    (sort_key : Option LidarrSortKey) (sort_dir : Option PyarrSortDirection)
    (missing : Bool) : Except PyarrErr Request :=
  match sortPairParams lidarrSortKeyStr pyarrSortDirectionStr sort_key sort_dir with
  | .error e => .error e
  | .ok sps =>
    .ok ⟨.get, verL,
      "wanted/" ++ (if missing then "missing" else "cutoff")
        ++ (match id_ with | none => "" | some i => "/" ++ toString i),
      optIntParam "page" page ++ optIntParam "pageSize" page_size ++ sps, none⟩

/-- `LidarrAPI.get_queue`: paginated/sortable queue list. -/
def lidarr_get_queue (page page_size : Option Int)
    (sort_key : Option LidarrSortKey) (sort_dir : Option PyarrSortDirection)
    (unknown_artists include_artist include_album : Option Bool) :
    Except PyarrErr Request :=
  match sortPairParams lidarrSortKeyStr pyarrSortDirectionStr sort_key sort_dir with
  | .error e => .error e
  | .ok sps =>
    .ok ⟨.get, verL, "queue",
      optIntParam "page" page ++ optIntParam "pageSize" page_size ++ sps
        ++ optTrueParam "unknownArtists" unknown_artists
        ++ optTrueParam "includeAlbum" include_album
        ++ optTrueParam "includeArtist" include_artist, none⟩

/-- The message of the `get_tracks` selector validation error. -/
def getTracksMsg : String :=
  "One of artistId, albumId, albumReleaseId or trackIds must be provided"

/-- `LidarrAPI.get_tracks`: `artistId`/`albumId`/`albumReleaseId` are
added when not `None`; `trackIds` is added as a query parameter only
when it is a list, while a single integer goes into the path
(`track/{trackIds}`); if all four are `None` the missing-argument error
is raised before the request. -/
def lidarr_get_tracks (artistId albumId albumReleaseId : Option Int)
    (trackIds : Option IntOrList) : Except PyarrErr Request :=
  let params :=
    idParam "artistId" artistId ++ idParam "albumId" albumId
      ++ idParam "albumReleaseId" albumReleaseId
      ++ (match trackIds with
          | some (.many ids) => [("trackIds", JVal.jarr (ids.map JVal.jint))]
          | _ => [])
  if artistId = none ∧ albumId = none ∧ albumReleaseId = none ∧ trackIds = none then
    .error (.missingArgument getTracksMsg)
  else
    .ok ⟨.get, verL,
      "track" ++ (match trackIds with
                  | some (.single n) => "/" ++ toString n
                  | _ => ""),
      params, none⟩

/-- `LidarrAPI.delete_track_file`: a list routes to `trackfile/bulk`
with the ids in the body; a single id routes to `trackfile/{id}` with no
body. -/
def lidarr_delete_track_file (ids_ : IntOrList) : Request :=
  match ids_ with
  | .many ids =>
    ⟨.delete, verL, "trackfile/bulk", [],
      some (.jobj [("trackFileIds", JVal.jarr (ids.map JVal.jint))])⟩
  | .single n => ⟨.delete, verL, "trackfile/" ++ toString n, [], none⟩

/-! ## Lidarr add-flows -/

/-- The remote responses a Lidarr add-flow consumes: the decoded JSON
lists returned by the profile endpoints and the lookup endpoints (the
latter keyed by search term). -/
structure LidarrEnv where
  qualityProfiles : List JObj
  metadataProfiles : List JObj
  searchArtist : String → List JObj
  searchAlbum : String → List JObj

/-- Modelled from the spec: `BaseArrAPI.get_quality_profile`
(`pyarr/base.py`, not under `src/`) fetches the configured quality
profiles (§4.2). -/
def qualityProfileReq : Request := ⟨.get, verL, "qualityprofile", [], none⟩

/-- `LidarrAPI.get_metadata_profile` with no id: `GET metadataprofile`. -/
def metadataProfileReq : Request := ⟨.get, verL, "metadataprofile", [], none⟩

/-- `LidarrAPI.lookup_artist`: `GET artist/lookup?term=...`. -/
def lookupArtistReq (term : String) : Request :=
  ⟨.get, verL, "artist/lookup", [("term", JVal.jstr term)], none⟩

/-- `LidarrAPI.lookup_album`: `GET album/lookup?term=...`. -/
def lookupAlbumReq (term : String) : Request :=
  ⟨.get, verL, "album/lookup", [("term", JVal.jstr term)], none⟩

/-- Embeds `profile_id = self.get_X_profile()[0]["id"]` wrapped in
`try/except IndexError: raise PyarrMissingProfile(msg)`: an empty
profile list raises the missing-profile error, and a first profile
without an `"id"` key is an uncaught `KeyError`. -/
def defaultProfileId (profiles : List JObj) (msg : String) :
    Except PyarrErr JVal :=
  match profiles with
  | [] => .error (.missingProfile msg)
  | p :: _ =>
    match getKey p "id" with
    | some v => .ok v
    | none => .error .keyError

/-- The observable effect of a client flow: the requests issued in
order, the deprecation warnings emitted, and the outcome (`α` is the
final POST request for an add-flow, so an error value means that POST
was never built or sent). -/
structure FlowResult (α : Type) where
  requests : List Request
  warnings : List String
  out : Except PyarrErr α

/-- Embeds the profile-defaulting step of `_artist_json`/`_album_json`:
a caller-supplied id is used as-is (no request); `None` fetches the
configured profiles and defaults to the first one's id. -/
def profileStep (given : Option Int) (profiles : List JObj) (req : Request)
    (msg : String) : List Request × Except PyarrErr JVal :=
  match given with
  | some v => ([], .ok (JVal.jint v))
  | none => ([req], defaultProfileId profiles msg)

/-- The field overwrites `_artist_json`/`_album_json` apply to the first
lookup result: `id = 0`, the two profile ids, the root folder path, the
add-options sub-record, and the monitored flag, in source order. -/
def addFields (a : JObj) (qv mv : JVal) (root_dir : String)
    (artist_monitor : LidarrArtistMonitor)
    (artist_search_for_missing_albums monitored : Bool) : JObj :=
  setKey (setKey (setKey (setKey (setKey (setKey a
    "id" (JVal.jint 0))
    "metadataProfileId" mv)
    "qualityProfileId" qv)
    "rootFolderPath" (JVal.jstr root_dir))
    "addOptions" (JVal.jobj
      [("monitor", JVal.jstr (lidarrArtistMonitorStr artist_monitor)),
       ("searchForMissingAlbums", JVal.jbool artist_search_for_missing_albums)]))
    "monitored" (JVal.jbool monitored)

/-- `LidarrAPI._artist_json`: resolve the two profile ids (defaulting to
the first configured profile), look the artist up by
`lidarr:{id_}` (an empty result is an uncaught `IndexError` from
`[0]`), then overwrite the fields of the first result. -/
def lidarr_artist_json (env : LidarrEnv) (id_ root_dir : String)
    (quality_profile_id metadata_profile_id : Option Int) (monitored : Bool)
    (artist_monitor : LidarrArtistMonitor)
    (artist_search_for_missing_albums : Bool) : FlowResult JObj :=
  match profileStep quality_profile_id env.qualityProfiles qualityProfileReq
      "There is no Quality Profile setup" with
  | (qr, .error e) => ⟨qr, [], .error e⟩
  | (qr, .ok qv) =>
    match profileStep metadata_profile_id env.metadataProfiles metadataProfileReq
        "There is no Metadata Profile setup" with
    | (mr, .error e) => ⟨qr ++ mr, [], .error e⟩
    | (mr, .ok mv) =>
      match env.searchArtist ("lidarr:" ++ id_) with
      | [] =>
        ⟨qr ++ mr ++ [lookupArtistReq ("lidarr:" ++ id_)], [], .error .indexError⟩
      | a :: _ =>
        ⟨qr ++ mr ++ [lookupArtistReq ("lidarr:" ++ id_)], [],
          .ok (addFields a qv mv root_dir artist_monitor
            artist_search_for_missing_albums monitored)⟩

/-- `LidarrAPI.add_artist`: build `_artist_json`, then POST it to
`artist`. -/
def lidarr_add_artist (env : LidarrEnv) (id_ root_dir : String)
    (quality_profile_id metadata_profile_id : Option Int) (monitored : Bool)
    (artist_monitor : LidarrArtistMonitor)
    (artist_search_for_missing_albums : Bool) : FlowResult Request :=
  let j := lidarr_artist_json env id_ root_dir quality_profile_id
    metadata_profile_id monitored artist_monitor artist_search_for_missing_albums
  match j.out with
  | .error e => ⟨j.requests, j.warnings, .error e⟩
  | .ok artist =>
    let req : Request := ⟨.post, verL, "artist", [], some (.jobj artist)⟩
    ⟨j.requests ++ [req], j.warnings, .ok req⟩

/-- `LidarrAPI._album_json`: identical shape to `_artist_json`, with the
album lookup (`album/lookup`) instead. -/
def lidarr_album_json (env : LidarrEnv) (id_ root_dir : String)
    (quality_profile_id metadata_profile_id : Option Int) (monitored : Bool)
    (artist_monitor : LidarrArtistMonitor)
    (artist_search_for_missing_albums : Bool) : FlowResult JObj :=
  match profileStep quality_profile_id env.qualityProfiles qualityProfileReq
      "There is no Quality Profile setup" with
  | (qr, .error e) => ⟨qr, [], .error e⟩
  | (qr, .ok qv) =>
    match profileStep metadata_profile_id env.metadataProfiles metadataProfileReq
        "There is no Metadata Profile setup" with
    | (mr, .error e) => ⟨qr ++ mr, [], .error e⟩
    | (mr, .ok mv) =>
      match env.searchAlbum ("lidarr:" ++ id_) with
      | [] =>
        ⟨qr ++ mr ++ [lookupAlbumReq ("lidarr:" ++ id_)], [], .error .indexError⟩
      | a :: _ =>
        ⟨qr ++ mr ++ [lookupAlbumReq ("lidarr:" ++ id_)], [],
          .ok (addFields a qv mv root_dir artist_monitor
            artist_search_for_missing_albums monitored)⟩

/-- `LidarrAPI.add_album`: build `_album_json`, then POST it to
`album`. -/
def lidarr_add_album (env : LidarrEnv) (id_ root_dir : String)
    (quality_profile_id metadata_profile_id : Option Int) (monitored : Bool)
    (artist_monitor : LidarrArtistMonitor)
    (artist_search_for_missing_albums : Bool) : FlowResult Request :=
  let j := lidarr_album_json env id_ root_dir quality_profile_id
    metadata_profile_id monitored artist_monitor artist_search_for_missing_albums
  match j.out with
  | .error e => ⟨j.requests, j.warnings, .error e⟩
  | .ok album =>
    let req : Request := ⟨.post, verL, "album", [], some (.jobj album)⟩
    ⟨j.requests ++ [req], j.warnings, .ok req⟩

/-! ## Radarr endpoint methods (`src/pyarr/radarr.py`) -/

/-- A `Union[str, int]` movie identifier, dispatched on by
`isinstance(id_, int)`. -/
inductive MovieId where
  | ofInt : Int → MovieId
  | ofStr : String → MovieId
deriving Repr, DecidableEq

/-- The lookup term `_movie_json` builds from the identifier: an integer
gives `tmdb:{id_}`, a string gives `imdb:{id_}`. -/
def movieLookupTerm : MovieId → String
  | .ofInt n => "tmdb:" ++ toString n
  | .ofStr s => "imdb:" ++ s

/-- `RadarrAPI.lookup_movie`: `GET movie/lookup?term=...`. -/
def radarr_lookup_movie (term : String) : Request :=
  ⟨.get, verR, "movie/lookup", [("term", JVal.jstr term)], none⟩

/-- `RadarrAPI.get_movie`: all movies, one by Radarr id
(`movie/{id_}`), or by TMDB id via the `tmdbid` query parameter. -/
def radarr_get_movie (id_ : Option Int) (tmdb : Bool) : Request :=
  ⟨.get, verR,
    "movie" ++ (match id_ with
                | none => ""
                | some i => if tmdb then "" else "/" ++ toString i),
    if tmdb then [("tmdbid", match id_ with | some i => JVal.jint i | none => JVal.jnull)]
    else [], none⟩

/-- The deprecation message of `get_movie_by_movie_id`. -/
def getMovieByMovieIdMsg : String :=
  "This method is deprecated and will be removed in a future release. Please use get_movie()"

/-- `RadarrAPI.get_movie_by_movie_id` (deprecated alias): emits a
`DeprecationWarning` (modelled as the warning-string list) and issues
`GET movie/{id_}`. -/
def radarr_get_movie_by_movie_id (id_ : Int) : List String × Request :=
  ([getMovieByMovieIdMsg], ⟨.get, verR, "movie/" ++ toString id_, [], none⟩)

/-- The deprecation message of `lookup_movie_by_tmdb_id`. -/
def lookupMovieByTmdbIdMsg : String :=
  "This method is deprecated and will be removed in a future release. use lookup_movie(term='tmdb:123456')"

/-- `RadarrAPI.lookup_movie_by_tmdb_id` (deprecated alias): warns, then
issues `GET movie/lookup?term=tmdb:{id_}`. -/
def radarr_lookup_movie_by_tmdb_id (id_ : Int) : List String × Request :=
  ([lookupMovieByTmdbIdMsg],
    ⟨.get, verR, "movie/lookup", [("term", JVal.jstr ("tmdb:" ++ toString id_))], none⟩)

/-- The deprecation message of `lookup_movie_by_imdb_id`. -/
def lookupMovieByImdbIdMsg : String :=
  "This method is deprecated and will be removed in a future release. use lookup_movie(term='imdb:123456')"

/-- `RadarrAPI.lookup_movie_by_imdb_id` (deprecated alias): warns, then
issues `GET movie/lookup?term=imdb:{id_}`. -/
def radarr_lookup_movie_by_imdb_id (id_ : String) : List String × Request :=
  ([lookupMovieByImdbIdMsg],
    ⟨.get, verR, "movie/lookup", [("term", JVal.jstr ("imdb:" ++ id_))], none⟩)

/-- Whether a JSON value is a Python list (`isinstance(data, list)`). -/
def isJArr : JVal → Bool
  | .jarr _ => true
  | _ => false

/-- `RadarrAPI.upd_movie`: PUT to `movie` for a single record or
`movie/editor` for a list, with an optional `moveFiles` parameter. -/
def radarr_upd_movie (data : JVal) (move_files : Option Bool) : Request :=
  ⟨.put, verR, "movie" ++ (if isJArr data then "/editor" else ""),
    optBoolParam "moveFiles" move_files, some data⟩

/-- The deprecation message of `upd_movies`. -/
def updMoviesMsg : String :=
  "This method is deprecated and will be removed in a future release. Please use upd_movie() with a list to update"

/-- `RadarrAPI.upd_movies` (deprecated alias): warns, then PUTs the data
to `movie/editor`. -/
def radarr_upd_movies (data : JVal) : List String × Request :=
  ([updMoviesMsg], ⟨.put, verR, "movie/editor", [], some data⟩)

/-- `str(True)` / `str(False)` in Python. -/
def pyBoolStr (b : Bool) : String := if b then "True" else "False"

/-- `RadarrAPI.del_movie`: truthy `delete_files` / `add_exclusion` flags
are stringified into the params dict; a list of ids routes to
`movie/editor` with the dict (including `movieIds`) as the body and no
query parameters, a single id routes to `movie/{id_}` with the dict as
query parameters and no body. -/
def radarr_del_movie (id_ : IntOrList)
    (delete_files add_exclusion : Option Bool) : Request :=
  let params : List (String × JVal) :=
    (match delete_files with
     | some b => if b then [("deleteFiles", JVal.jstr (pyBoolStr b))] else []
     | none => [])
    ++ (match add_exclusion with
        | some b => if b then [("addImportExclusion", JVal.jstr (pyBoolStr b))] else []
        | none => [])
  match id_ with
  | .many ids =>
    ⟨.delete, verR, "movie/editor", [],
      some (.jobj (params ++ [("movieIds", JVal.jarr (ids.map JVal.jint))]))⟩
  | .single n => ⟨.delete, verR, "movie/" ++ toString n, params, none⟩

/-- The deprecation message of `del_movies`. -/
def delMoviesMsg : String :=
  "This method is deprecated and will be removed in a future release. Please use del_movie()."

/-- `RadarrAPI.del_movies` (deprecated alias): warns, then DELETEs
`movie/editor` with the given body. -/
def radarr_del_movies (data : JVal) : List String × Request :=
  ([delMoviesMsg], ⟨.delete, verR, "movie/editor", [], some data⟩)

/-- `RadarrAPI.del_movie_file`: a list routes to `moviefile/bulk` with
the ids in the body; a single id routes to `moviefile/{id}` with no
body. -/
def radarr_del_movie_file (id_ : IntOrList) : Request :=
  match id_ with
  | .many ids =>
    ⟨.delete, verR, "moviefile/bulk", [],
      some (.jobj [("movieFileIds", JVal.jarr (ids.map JVal.jint))])⟩
  | .single n => ⟨.delete, verR, "moviefile/" ++ toString n, [], none⟩

/-- `RadarrAPI.get_queue`: paginated/sortable queue list. -/
def radarr_get_queue (page page_size : Option Int)
    (sort_dir : Option PyarrSortDirection) (sort_key : Option RadarrSortKey)
    (include_unknown_movie_items : Option Bool) : Except PyarrErr Request :=
  match sortPairParams radarrSortKeyStr pyarrSortDirectionStr sort_key sort_dir with
  | .error e => .error e
  | .ok sps =>
    .ok ⟨.get, verR, "queue",
      optIntParam "page" page ++ optIntParam "pageSize" page_size ++ sps
        ++ optBoolParam "includeUnknownMovieItems" include_unknown_movie_items,
      none⟩

/-! ## Radarr add-flow -/

/-- The remote responses a Radarr add-flow consumes: the decoded JSON
list returned by `lookup_movie`, keyed by search term. -/
structure RadarrEnv where
  searchMovie : String → List JObj

/-- The deprecation message for the unused `tmdb` argument. -/
def tmdbArgMsg : String :=
  "Argument tmdb is no longer used and will be removed in a future release."

/-- `RadarrAPI._movie_json`: warn when `tmdb is not None`, look the
movie up by `tmdb:{id_}` (integer id) or `imdb:{id_}` (string id); an
empty result raises `PyarrRecordNotFound`, otherwise a fresh record is
built from the first result (a missing key is an uncaught `KeyError`). -/
def radarr_movie_json (env : RadarrEnv) (id_ : MovieId) (root_dir : String)
    (quality_profile_id : Int) (monitored search_for_movie : Bool)
    (tmdb : Option Bool) : FlowResult JObj :=
  let w : List String := match tmdb with | some _ => [tmdbArgMsg] | none => []
  let term := movieLookupTerm id_
  let lreq := radarr_lookup_movie term
  match env.searchMovie term with
  | [] => ⟨[lreq], w, .error (.recordNotFound "Movie Doesn't Exist")⟩
  | movie :: _ =>
    let build : Except PyarrErr JObj :=
      match getKey movie "title", getKey movie "year", getKey movie "tmdbId",
          getKey movie "images", getKey movie "titleSlug" with
      | some title, some year, some tmdbId, some images, some titleSlug =>
        .ok
          [("title", title),
           ("rootFolderPath", JVal.jstr root_dir),
           ("qualityProfileId", JVal.jint quality_profile_id),
           ("year", year),
           ("tmdbId", tmdbId),
           ("images", images),
           ("titleSlug", titleSlug),
           ("monitored", JVal.jbool monitored),
           ("addOptions", JVal.jobj [("searchForMovie", JVal.jbool search_for_movie)])]
      | _, _, _, _, _ => .error .keyError
    ⟨[lreq], w, build⟩

/-- `RadarrAPI.add_movie`: warn when `tmdb` is truthy, build
`_movie_json` (without forwarding `tmdb`), then POST it to `movie`. -/
def radarr_add_movie (env : RadarrEnv) (id_ : MovieId) (root_dir : String)
    (quality_profile_id : Int) (monitored search_for_movie : Bool)
    (tmdb : Option Bool) : FlowResult Request :=
  let w : List String := if tmdb = some true then [tmdbArgMsg] else []
  let j := radarr_movie_json env id_ root_dir quality_profile_id monitored
    search_for_movie none
  match j.out with
  | .error e => ⟨j.requests, w ++ j.warnings, .error e⟩
  | .ok movie_json =>
    let req : Request := ⟨.post, verR, "movie", [], some (.jobj movie_json)⟩
    ⟨j.requests ++ [req], w ++ j.warnings, .ok req⟩

/-! ## Observation helpers for the claims -/

/-- Whether an `Except` outcome is a success. -/
def exOk {α : Type} : Except PyarrErr α → Bool
  | .ok _ => true
  | .error _ => false

/-- The error of a flow outcome, when there is one. -/
def flowErr {α : Type} (fr : FlowResult α) : Option PyarrErr :=
  match fr.out with
  | .ok _ => none
  | .error e => some e

/-- Whether any request of a list is a POST. -/
def hasPost (rs : List Request) : Bool :=
  rs.any (fun r => r.method == HttpMethod.post)

/-- Whether an error value is the distinguished record-not-found
error. -/
def errIsRecordNotFound : PyarrErr → Bool
  | .recordNotFound _ => true
  | _ => false

/-- The value at key `k` of the JSON object POSTed by an add-flow
(`none` when the flow errored, posted no object body, or the body has no
such key). -/
def postedKey (fr : FlowResult Request) (k : String) : Option JVal :=
  match fr.out with
  | .ok r =>
    match r.body with
    | some (.jobj o) => getKey o k
    | _ => none
  | .error _ => none

/-- The first value at key `k` among a request's query parameters. -/
def findParam (r : Request) (k : String) : Option JVal := getKey r.params k

/-- Whether a successfully built request carries a query parameter with
key `k` (`false` when the call errored locally). -/
def okHasParam (e : Except PyarrErr Request) (k : String) : Bool :=
  match e with
  | .ok r => r.params.any (fun kv => kv.1 == k)
  | .error _ => false

/-- What the truthiness check of a paginated endpoint sends for an
optional page / page-size argument: a supplied non-zero integer
verbatim, nothing for `None` or `0`. -/
def pageVal : Option Int → Option JVal
  | some p => if p = 0 then none else some (JVal.jint p)
  | none => none

/-- A Lidarr environment with one configured profile of each kind and
lookups that return no results. -/
def emptyLookupLidarrEnv : LidarrEnv :=
  ⟨[[("id", JVal.jint 1)]], [[("id", JVal.jint 1)]], fun _ => [], fun _ => []⟩

/-- A Radarr environment whose movie lookup returns no results. -/
def emptyLookupRadarrEnv : RadarrEnv := ⟨fun _ => []⟩

/-- A populated Lidarr environment for concrete runs: one quality
profile (id 3), one metadata profile (id 4), lookups returning a single
record with a non-zero id. -/
def sampleLidarrEnv : LidarrEnv :=
  ⟨[[("id", JVal.jint 3)]], [[("id", JVal.jint 4)]],
   fun _ => [[("id", JVal.jint 9), ("artistName", JVal.jstr "A")]],
   fun _ => [[("id", JVal.jint 9), ("title", JVal.jstr "B")]]⟩

/-- A populated Radarr environment: the movie lookup returns one record
with a non-zero id and all the fields `_movie_json` reads. -/
def sampleRadarrEnv : RadarrEnv :=
  ⟨fun _ =>
    [[("id", JVal.jint 7), ("title", JVal.jstr "T"),
      ("year", JVal.jint 1999), ("tmdbId", JVal.jint 5),
      ("images", JVal.jarr []), ("titleSlug", JVal.jstr "t")]]⟩

/-- A Lidarr environment with no quality profiles configured. -/
def noQualityEnv : LidarrEnv :=
  ⟨[], [[("id", JVal.jint 1)]], fun _ => [], fun _ => []⟩

/-- A Lidarr environment with no metadata profiles configured. -/
def noMetadataEnv : LidarrEnv :=
  ⟨[[("id", JVal.jint 1)]], [], fun _ => [], fun _ => []⟩

/-! ## Claims -/

theorem getKey_setKey_same (o : JObj) (k : String) (v : JVal) :
    getKey (setKey o k v) k = some v := by
  induction o with
  | nil => simp [setKey, getKey]
  | cons p rest ih =>
    obtain ⟨k', w⟩ := p
    by_cases hp : k' = k
    · simp [setKey, hp, getKey]
    · simp [setKey, hp, getKey, ih]

theorem getKey_setKey_other (o : JObj) (k q : String) (v : JVal) (h : q ≠ k) :
    getKey (setKey o k v) q = getKey o q := by
  have hk : k ≠ q := Ne.symm h
  induction o with
  | nil => simp [setKey, getKey, hk]
  | cons p rest ih =>
    obtain ⟨k', w⟩ := p
    by_cases hp : k' = k
    · have hpq : k' ≠ q := hp ▸ hk
      simp [setKey, hp, getKey, hk, hpq]
    · by_cases hq : k' = q
      · simp [setKey, hp, getKey, hq, h]
      · simp [setKey, hp, getKey, hq, ih]

/-- C6: for the delete-by-identifier operations `delete_track_file` and
`del_movie_file`, a list of ids routes to the `resource/bulk` path with
the ids placed in the request body, and a single integer id routes to
the `resource/{id}` path with no body. -/
theorem c6_delete_by_identifier_routing (ids : List Int) (n : Int) :
    lidarr_delete_track_file (.many ids)
      = ⟨.delete, verL, "trackfile/bulk", [],
          some (.jobj [("trackFileIds", JVal.jarr (ids.map JVal.jint))])⟩
    ∧ lidarr_delete_track_file (.single n)
      = ⟨.delete, verL, "trackfile/" ++ toString n, [], none⟩
    ∧ radarr_del_movie_file (.many ids)
      = ⟨.delete, verR, "moviefile/bulk", [],
          some (.jobj [("movieFileIds", JVal.jarr (ids.map JVal.jint))])⟩
    ∧ radarr_del_movie_file (.single n)
      = ⟨.delete, verR, "moviefile/" ++ toString n, [], none⟩ :=
  ⟨rfl, rfl, rfl, rfl⟩

/-- C5 counterexample: supplying exactly the selector `trackIds` as a
single integer succeeds but sends no selector as a query parameter at
all (the id goes into the path instead), contradicting the claim that
the request includes that selector as a query parameter. -/
theorem c5_counterexample :
    lidarr_get_tracks none none none (some (.single 7))
      = .ok ⟨.get, verL, "track/7", [], none⟩
    ∧ okHasParam (lidarr_get_tracks none none none (some (.single 7))) "trackIds"
        = false
    ∧ exOk (lidarr_get_tracks none none none (some (.single 7))) = true :=
  ⟨rfl, rfl, rfl⟩

/-- C5 amended: calling `get_tracks` with all four selectors absent
raises the missing-argument error before any request; supplying exactly
one of `artistId`, `albumId`, `albumReleaseId`, or a *list* `trackIds`
succeeds and sends exactly that selector as the sole query parameter;
supplying exactly a single-integer `trackIds` succeeds with the id in
the path (`track/{id}`) and no selector query parameter. -/
theorem c5_get_tracks_selectors (a b r n : Int) (ids : List Int) :
    lidarr_get_tracks none none none none
      = .error (.missingArgument getTracksMsg)
    ∧ lidarr_get_tracks (some a) none none none
        = .ok ⟨.get, verL, "track", [("artistId", JVal.jint a)], none⟩
    ∧ lidarr_get_tracks none (some b) none none
        = .ok ⟨.get, verL, "track", [("albumId", JVal.jint b)], none⟩
    ∧ lidarr_get_tracks none none (some r) none
        = .ok ⟨.get, verL, "track", [("albumReleaseId", JVal.jint r)], none⟩
    ∧ lidarr_get_tracks none none none (some (.many ids))
        = .ok ⟨.get, verL, "track",
            [("trackIds", JVal.jarr (ids.map JVal.jint))], none⟩
    ∧ lidarr_get_tracks none none none (some (.single n))
        = .ok ⟨.get, verL, "track" ++ ("/" ++ toString n), [], none⟩ := by
  refine ⟨rfl, ?_, ?_, ?_, ?_, ?_⟩ <;> rfl

/-- C8: each deprecated Radarr alias emits exactly one deprecation
warning and issues the identical request as the corresponding canonical
method at equivalent arguments; the warning is returned alongside the
request, never replacing it. -/
theorem c8_deprecated_aliases (i : Int) (s : String) (l : List JVal)
    (ids : List Int) :
    (radarr_get_movie_by_movie_id i).2 = radarr_get_movie (some i) false
    ∧ (radarr_get_movie_by_movie_id i).1 = [getMovieByMovieIdMsg]
    ∧ (radarr_lookup_movie_by_tmdb_id i).2
        = radarr_lookup_movie ("tmdb:" ++ toString i)
    ∧ (radarr_lookup_movie_by_tmdb_id i).1 = [lookupMovieByTmdbIdMsg]
    ∧ (radarr_lookup_movie_by_imdb_id s).2
        = radarr_lookup_movie ("imdb:" ++ s)
    ∧ (radarr_lookup_movie_by_imdb_id s).1 = [lookupMovieByImdbIdMsg]
    ∧ (radarr_upd_movies (.jarr l)).2 = radarr_upd_movie (.jarr l) none
    ∧ (radarr_upd_movies (.jarr l)).1 = [updMoviesMsg]
    ∧ (radarr_del_movies (.jobj [("movieIds", JVal.jarr (ids.map JVal.jint))])).2
        = radarr_del_movie (.many ids) none none
    ∧ (radarr_del_movies (.jobj [("movieIds", JVal.jarr (ids.map JVal.jint))])).1
        = [delMoviesMsg] := by
  refine ⟨?_, rfl, rfl, rfl, rfl, rfl, rfl, rfl, rfl, rfl⟩
  show Request.mk .get verR ("movie/" ++ toString i) [] none
    = Request.mk .get verR ("movie" ++ ("/" ++ toString i)) [] none
  rw [show ("movie/" : String) = "movie" ++ "/" from rfl, String.append_assoc]

/-- C9: `add_root_folder(name="music", path="/data/music",
qualityProfile=1, metadataProfile=1)` issues `POST /v1/rootfolder` whose
body is exactly the claimed JSON object (`defaultTags` defaulting to the
empty list) and returns the decoded transport response unchanged. -/
theorem c9_add_root_folder (resp : Request → JVal) :
    (lidarr_add_root_folder resp "music" "/data/music" 1 1 none).1.method
      = .post
    ∧ (lidarr_add_root_folder resp "music" "/data/music" 1 1 none).1.ver = "/v1"
    ∧ (lidarr_add_root_folder resp "music" "/data/music" 1 1 none).1.path
        = "rootfolder"
    ∧ (lidarr_add_root_folder resp "music" "/data/music" 1 1 none).1.params = []
    ∧ (∃ o : JObj,
        (lidarr_add_root_folder resp "music" "/data/music" 1 1 none).1.body
          = some (.jobj o)
        ∧ o.Perm
            [("name", JVal.jstr "music"), ("path", JVal.jstr "/data/music"),
             ("defaultQualityProfileId", JVal.jint 1),
             ("defaultMetadataProfileId", JVal.jint 1),
             ("defaultTags", JVal.jarr [])])
    ∧ (lidarr_add_root_folder resp "music" "/data/music" 1 1 none).2
        = resp (lidarr_add_root_folder resp "music" "/data/music" 1 1 none).1 := by
  refine ⟨rfl, rfl, rfl, rfl, ⟨_, rfl, ?_⟩, rfl⟩
  have h1 : ([("defaultTags", JVal.jarr []),
      ("defaultQualityProfileId", JVal.jint 1),
      ("defaultMetadataProfileId", JVal.jint 1)]
      ++ [("name", JVal.jstr "music"), ("path", JVal.jstr "/data/music")]).Perm
      ([("name", JVal.jstr "music"), ("path", JVal.jstr "/data/music")]
      ++ [("defaultTags", JVal.jarr []),
          ("defaultQualityProfileId", JVal.jint 1),
          ("defaultMetadataProfileId", JVal.jint 1)]) :=
    List.perm_append_comm
  have h2 : ([("defaultTags", JVal.jarr [])]
      ++ [("defaultQualityProfileId", JVal.jint 1),
          ("defaultMetadataProfileId", JVal.jint 1)]).Perm
      ([("defaultQualityProfileId", JVal.jint 1),
        ("defaultMetadataProfileId", JVal.jint 1)]
      ++ [("defaultTags", JVal.jarr [])]) :=
    List.perm_append_comm
  exact h1.trans (List.Perm.append_left _ h2)

/-- C10: the lookup term of the `add_movie` flow is determined solely by
the runtime type of the identifier: the flow's first request is always
the `movie/lookup` GET at `movieLookupTerm id_`, which is `tmdb:{id_}`
for an integer and `imdb:{id_}` for a string, independent of every other
argument. -/
theorem c10_movie_lookup_namespace (env : RadarrEnv) (id_ : MovieId)
    (root_dir : String) (qpid : Int) (monitored search_for_movie : Bool)
    (tmdb : Option Bool) (n : Int) (s : String) :
    (radarr_add_movie env id_ root_dir qpid monitored search_for_movie
        tmdb).requests.head?
      = some (radarr_lookup_movie (movieLookupTerm id_))
    ∧ movieLookupTerm (.ofInt n) = "tmdb:" ++ toString n
    ∧ movieLookupTerm (.ofStr s) = "imdb:" ++ s := by
  refine ⟨?_, rfl, rfl⟩
  have hreq : (radarr_movie_json env id_ root_dir qpid monitored
      search_for_movie none).requests
      = [radarr_lookup_movie (movieLookupTerm id_)] := by
    cases h : env.searchMovie (movieLookupTerm id_) <;>
      simp [radarr_movie_json, h]
  unfold radarr_add_movie
  split <;> (simp only [hreq]; split <;> rfl)

theorem radarrSortKeyStr_ne (k : RadarrSortKey) : radarrSortKeyStr k ≠ "" := by
  cases k <;> decide

theorem lidarrSortKeyStr_ne (k : LidarrSortKey) : lidarrSortKeyStr k ≠ "" := by
  cases k <;> decide

theorem pyarrSortDirectionStr_ne (d : PyarrSortDirection) :
    pyarrSortDirectionStr d ≠ "" := by
  cases d <;> decide

/-- C3: for the paginated/sortable endpoints (`get_wanted`, the two
`get_queue`s), supplying exactly one of `sort_key` / `sort_dir` raises
the missing-argument error (so no request is built), while supplying
both yields a request whose query parameters contain both `sortKey` and
`sortDirection`. -/
theorem c3_sort_pair_validation (pageW psW idW pageL psL pageR psR : Option Int)
    (missing : Bool) (ua ia ib iu : Option Bool)
    (lk : LidarrSortKey) (rk : RadarrSortKey) (d : PyarrSortDirection) :
    lidarr_get_wanted idW pageW psW (some lk) none missing
      = .error (.missingArgument sortPairMsg)
    ∧ lidarr_get_wanted idW pageW psW none (some d) missing
        = .error (.missingArgument sortPairMsg)
    ∧ (∃ req, lidarr_get_wanted idW pageW psW (some lk) (some d) missing
          = .ok req
        ∧ ("sortKey", JVal.jstr (lidarrSortKeyStr lk)) ∈ req.params
        ∧ ("sortDirection", JVal.jstr (pyarrSortDirectionStr d)) ∈ req.params)
    ∧ lidarr_get_queue pageL psL (some lk) none ua ia ib
        = .error (.missingArgument sortPairMsg)
    ∧ lidarr_get_queue pageL psL none (some d) ua ia ib
        = .error (.missingArgument sortPairMsg)
    ∧ (∃ req, lidarr_get_queue pageL psL (some lk) (some d) ua ia ib = .ok req
        ∧ ("sortKey", JVal.jstr (lidarrSortKeyStr lk)) ∈ req.params
        ∧ ("sortDirection", JVal.jstr (pyarrSortDirectionStr d)) ∈ req.params)
    ∧ radarr_get_queue pageR psR none (some rk) iu
        = .error (.missingArgument sortPairMsg)
    ∧ radarr_get_queue pageR psR (some d) none iu
        = .error (.missingArgument sortPairMsg)
    ∧ (∃ req, radarr_get_queue pageR psR (some d) (some rk) iu = .ok req
        ∧ ("sortKey", JVal.jstr (radarrSortKeyStr rk)) ∈ req.params
        ∧ ("sortDirection", JVal.jstr (pyarrSortDirectionStr d)) ∈ req.params) := by
  have hl := lidarrSortKeyStr_ne lk
  have hr := radarrSortKeyStr_ne rk
  have hd := pyarrSortDirectionStr_ne d
  refine ⟨?_, ?_, ?_, ?_, ?_, ?_, ?_, ?_, ?_⟩
  · simp [lidarr_get_wanted, sortPairParams, hl]
  · simp [lidarr_get_wanted, sortPairParams, hd]
  · exact ⟨⟨.get, verL,
      "wanted/" ++ (if missing then "missing" else "cutoff")
        ++ (match idW with | none => "" | some i => "/" ++ toString i),
      optIntParam "page" pageW ++ optIntParam "pageSize" psW
        ++ [("sortKey", JVal.jstr (lidarrSortKeyStr lk)),
            ("sortDirection", JVal.jstr (pyarrSortDirectionStr d))], none⟩,
      by simp [lidarr_get_wanted, sortPairParams, hl, hd],
      by simp [List.mem_append],
      by simp [List.mem_append]⟩
  · simp [lidarr_get_queue, sortPairParams, hl]
  · simp [lidarr_get_queue, sortPairParams, hd]
  · exact ⟨⟨.get, verL, "queue",
      optIntParam "page" pageL ++ optIntParam "pageSize" psL
        ++ ([("sortKey", JVal.jstr (lidarrSortKeyStr lk)),
             ("sortDirection", JVal.jstr (pyarrSortDirectionStr d))]
          ++ optTrueParam "unknownArtists" ua
          ++ optTrueParam "includeAlbum" ib
          ++ optTrueParam "includeArtist" ia), none⟩,
      by simp [lidarr_get_queue, sortPairParams, hl, hd],
      by simp [List.mem_append],
      by simp [List.mem_append]⟩
  · simp [radarr_get_queue, sortPairParams, hr]
  · simp [radarr_get_queue, sortPairParams, hd]
  · exact ⟨⟨.get, verR, "queue",
      optIntParam "page" pageR ++ optIntParam "pageSize" psR
        ++ ([("sortKey", JVal.jstr (radarrSortKeyStr rk)),
             ("sortDirection", JVal.jstr (pyarrSortDirectionStr d))]
          ++ optBoolParam "includeUnknownMovieItems" iu), none⟩,
      by simp [radarr_get_queue, sortPairParams, hr, hd],
      by simp [List.mem_append],
      by simp [List.mem_append]⟩

/-! ## Query-parameter lookup lemmas -/

theorem getKey_append_of_some {a : JObj} {k : String} {v : JVal} (b : JObj)
    (h : getKey a k = some v) : getKey (a ++ b) k = some v := by
  induction a with
  | nil => simp [getKey] at h
  | cons p rest ih =>
    obtain ⟨k', w⟩ := p
    by_cases hp : k' = k
    · simp [getKey, hp] at h ⊢; exact h
    · simp [getKey, hp] at h ⊢; exact ih h

theorem getKey_append_of_none {a : JObj} {k : String} (b : JObj)
    (h : getKey a k = none) : getKey (a ++ b) k = getKey b k := by
  induction a with
  | nil => rfl
  | cons p rest ih =>
    obtain ⟨k', w⟩ := p
    by_cases hp : k' = k
    · simp [getKey, hp] at h
    · simp [getKey, hp] at h ⊢; exact ih h

theorem getKey_append_none {a b : JObj} {k : String}
    (ha : getKey a k = none) (hb : getKey b k = none) :
    getKey (a ++ b) k = none := (getKey_append_of_none b ha).trans hb

theorem getKey_optIntParam_self (k : String) (v : Option Int) :
    getKey (optIntParam k v) k = pageVal v := by
  cases v with
  | none => rfl
  | some p => by_cases hp : p = 0 <;> simp [optIntParam, pageVal, getKey, hp]

theorem getKey_optIntParam_ne (k q : String) (v : Option Int) (h : q ≠ k) :
    getKey (optIntParam k v) q = none := by
  have hk : k ≠ q := Ne.symm h
  cases v with
  | none => rfl
  | some p => by_cases hp : p = 0 <;> simp [optIntParam, getKey, hp, hk]

theorem getKey_optTrueParam_ne (k q : String) (v : Option Bool) (h : q ≠ k) :
    getKey (optTrueParam k v) q = none := by
  have hk : k ≠ q := Ne.symm h
  cases v with
  | none => rfl
  | some b => cases b <;> simp [optTrueParam, getKey, hk]

theorem getKey_optBoolParam_ne (k q : String) (v : Option Bool) (h : q ≠ k) :
    getKey (optBoolParam k v) q = none := by
  have hk : k ≠ q := Ne.symm h
  cases v with
  | none => rfl
  | some b => simp [optBoolParam, getKey, hk]

theorem sortPairParams_ok_keys {κ δ : Type} (ks : κ → String) (ds : δ → String)
    (sk : Option κ) (sd : Option δ) (sps : List (String × JVal)) (q : String)
    (h : sortPairParams ks ds sk sd = .ok sps)
    (h1 : q ≠ "sortKey") (h2 : q ≠ "sortDirection") :
    getKey sps q = none := by
  cases sk with
  | none =>
    cases sd with
    | none =>
      simp [sortPairParams] at h
      subst h; rfl
    | some d =>
      simp only [sortPairParams] at h
      split_ifs at h <;> simp at h <;> (subst h; rfl)
  | some k =>
    cases sd with
    | none =>
      simp only [sortPairParams] at h
      split_ifs at h <;> simp at h <;> (subst h; rfl)
    | some d =>
      simp only [sortPairParams] at h
      split_ifs at h <;> simp at h <;>
        (subst h; first | rfl | simp [getKey, Ne.symm h1, Ne.symm h2])

theorem findParam_page_chain (page psz : Option Int) (rest : JObj)
    (hp : getKey rest "page" = none) (hs : getKey rest "pageSize" = none) :
    getKey (optIntParam "page" page ++ (optIntParam "pageSize" psz ++ rest))
        "page" = pageVal page
    ∧ getKey (optIntParam "page" page ++ (optIntParam "pageSize" psz ++ rest))
        "pageSize" = pageVal psz := by
  constructor
  · have h1 := getKey_optIntParam_self "page" page
    cases hv : pageVal page with
    | some w =>
      rw [hv] at h1
      rw [getKey_append_of_some _ h1]
    | none =>
      rw [hv] at h1
      rw [getKey_append_of_none _ h1,
        getKey_append_of_none _ (getKey_optIntParam_ne "pageSize" "page" psz
          (by decide)), hp]
  · have h1 := getKey_optIntParam_self "pageSize" psz
    have h0 := getKey_optIntParam_ne "page" "pageSize" page (by decide)
    cases hv : pageVal psz with
    | some w =>
      rw [hv] at h1
      rw [getKey_append_of_none _ h0, getKey_append_of_some _ h1]
    | none =>
      rw [hv] at h1
      rw [getKey_append_of_none _ h0, getKey_append_of_none _ h1, hs]

/-- C4 counterexample: a supplied page of `0` is silently dropped by the
truthiness check rather than passed through verbatim: the call succeeds
yet the `page` query parameter is absent, contradicting the claim that
every supplied integer value is passed through. -/
theorem c4_counterexample :
    radarr_get_queue (some 0) none none none none
      = .ok ⟨.get, verR, "queue", [], none⟩
    ∧ okHasParam (radarr_get_queue (some 0) none none none none) "page"
        = false :=
  ⟨rfl, rfl⟩

/-- C4 amended: for the paginated endpoints, whenever the call succeeds
the `page` / `pageSize` query parameter carries a supplied non-zero
value verbatim, and is omitted entirely when the argument is `None` or
`0` (a supplied `0` is silently dropped by the truthiness check). -/
theorem c4_page_passthrough (page psz idw : Option Int) (missing : Bool)
    (sdr : Option PyarrSortDirection) (skr : Option RadarrSortKey)
    (skl : Option LidarrSortKey) (sdl : Option PyarrSortDirection)
    (iu ua ia ib : Option Bool) (r1 r2 r3 : Request) :
    (radarr_get_queue page psz sdr skr iu = .ok r1 →
      findParam r1 "page" = pageVal page
        ∧ findParam r1 "pageSize" = pageVal psz)
    ∧ (lidarr_get_queue page psz skl sdl ua ia ib = .ok r2 →
      findParam r2 "page" = pageVal page
        ∧ findParam r2 "pageSize" = pageVal psz)
    ∧ (lidarr_get_wanted idw page psz skl sdl missing = .ok r3 →
      findParam r3 "page" = pageVal page
        ∧ findParam r3 "pageSize" = pageVal psz) := by
  refine ⟨?_, ?_, ?_⟩
  · intro h
    unfold radarr_get_queue at h
    split at h
    · simp at h
    next sps hsp =>
      have hkp := sortPairParams_ok_keys radarrSortKeyStr pyarrSortDirectionStr
        skr sdr sps "page" hsp (by decide) (by decide)
      have hks := sortPairParams_ok_keys radarrSortKeyStr pyarrSortDirectionStr
        skr sdr sps "pageSize" hsp (by decide) (by decide)
      have hrp : getKey (sps ++ optBoolParam "includeUnknownMovieItems" iu)
          "page" = none :=
        getKey_append_none hkp (getKey_optBoolParam_ne _ _ _ (by decide))
      have hrs : getKey (sps ++ optBoolParam "includeUnknownMovieItems" iu)
          "pageSize" = none :=
        getKey_append_none hks (getKey_optBoolParam_ne _ _ _ (by decide))
      have hr := (Except.ok.injEq _ _).mp h
      subst hr
      simp only [findParam, List.append_assoc]
      exact findParam_page_chain page psz _ hrp hrs
  · intro h
    unfold lidarr_get_queue at h
    split at h
    · simp at h
    next sps hsp =>
      have hkp := sortPairParams_ok_keys lidarrSortKeyStr pyarrSortDirectionStr
        skl sdl sps "page" hsp (by decide) (by decide)
      have hks := sortPairParams_ok_keys lidarrSortKeyStr pyarrSortDirectionStr
        skl sdl sps "pageSize" hsp (by decide) (by decide)
      have hrp : getKey (sps ++ (optTrueParam "unknownArtists" ua
          ++ (optTrueParam "includeAlbum" ib
            ++ optTrueParam "includeArtist" ia))) "page" = none :=
        getKey_append_none hkp (getKey_append_none
          (getKey_optTrueParam_ne _ _ _ (by decide))
          (getKey_append_none (getKey_optTrueParam_ne _ _ _ (by decide))
            (getKey_optTrueParam_ne _ _ _ (by decide))))
      have hrs : getKey (sps ++ (optTrueParam "unknownArtists" ua
          ++ (optTrueParam "includeAlbum" ib
            ++ optTrueParam "includeArtist" ia))) "pageSize" = none :=
        getKey_append_none hks (getKey_append_none
          (getKey_optTrueParam_ne _ _ _ (by decide))
          (getKey_append_none (getKey_optTrueParam_ne _ _ _ (by decide))
            (getKey_optTrueParam_ne _ _ _ (by decide))))
      have hr := (Except.ok.injEq _ _).mp h
      subst hr
      simp only [findParam, List.append_assoc]
      exact findParam_page_chain page psz _ hrp hrs
  · intro h
    unfold lidarr_get_wanted at h
    split at h
    · simp at h
    next sps hsp =>
      have hkp := sortPairParams_ok_keys lidarrSortKeyStr pyarrSortDirectionStr
        skl sdl sps "page" hsp (by decide) (by decide)
      have hks := sortPairParams_ok_keys lidarrSortKeyStr pyarrSortDirectionStr
        skl sdl sps "pageSize" hsp (by decide) (by decide)
      have hr := (Except.ok.injEq _ _).mp h
      subst hr
      simp only [findParam, List.append_assoc]
      exact findParam_page_chain page psz _ hkp hks

/-- C4 witness: at a concrete call with `page=2` and `page_size=0`, the
built request carries `page` verbatim and omits `pageSize`. -/
theorem c4_witness :
    findParam ⟨.get, verR, "queue", [("page", JVal.jint 2)], none⟩ "page"
      = pageVal (some 2)
    ∧ findParam ⟨.get, verR, "queue", [("page", JVal.jint 2)], none⟩ "pageSize"
      = pageVal (some 0) :=
  (c4_page_passthrough (some 2) (some 0) none false none none none none
    none none none none
    ⟨.get, verR, "queue", [("page", JVal.jint 2)], none⟩
    ⟨.get, verR, "queue", [("page", JVal.jint 2)], none⟩
    ⟨.get, verR, "queue", [("page", JVal.jint 2)], none⟩).1 rfl

/-! ## Field lemmas for the add-flows -/

theorem getKey_addFields_id (a : JObj) (qv mv : JVal) (rd : String)
    (am : LidarrArtistMonitor) (s m : Bool) :
    getKey (addFields a qv mv rd am s m) "id" = some (JVal.jint 0) := by
  unfold addFields
  rw [getKey_setKey_other _ _ _ _ (by decide),
    getKey_setKey_other _ _ _ _ (by decide),
    getKey_setKey_other _ _ _ _ (by decide),
    getKey_setKey_other _ _ _ _ (by decide),
    getKey_setKey_other _ _ _ _ (by decide), getKey_setKey_same]

theorem getKey_addFields_quality (a : JObj) (qv mv : JVal) (rd : String)
    (am : LidarrArtistMonitor) (s m : Bool) :
    getKey (addFields a qv mv rd am s m) "qualityProfileId" = some qv := by
  unfold addFields
  rw [getKey_setKey_other _ _ _ _ (by decide),
    getKey_setKey_other _ _ _ _ (by decide),
    getKey_setKey_other _ _ _ _ (by decide), getKey_setKey_same]

theorem getKey_addFields_metadata (a : JObj) (qv mv : JVal) (rd : String)
    (am : LidarrArtistMonitor) (s m : Bool) :
    getKey (addFields a qv mv rd am s m) "metadataProfileId" = some mv := by
  unfold addFields
  rw [getKey_setKey_other _ _ _ _ (by decide),
    getKey_setKey_other _ _ _ _ (by decide),
    getKey_setKey_other _ _ _ _ (by decide),
    getKey_setKey_other _ _ _ _ (by decide), getKey_setKey_same]

theorem lidarr_artist_json_ok_shape (env : LidarrEnv) (id_ rd : String)
    (qp mp : Option Int) (mon : Bool) (am : LidarrArtistMonitor) (s : Bool)
    (o : JObj)
    (h : (lidarr_artist_json env id_ rd qp mp mon am s).out = .ok o) :
    ∃ a qv mv, o = addFields a qv mv rd am s mon := by
  unfold lidarr_artist_json at h
  split at h
  · simp at h
  · split at h
    · simp at h
    · split at h
      · simp at h
      · exact ⟨_, _, _, (Except.ok.inj h).symm⟩

theorem lidarr_album_json_ok_shape (env : LidarrEnv) (id_ rd : String)
    (qp mp : Option Int) (mon : Bool) (am : LidarrArtistMonitor) (s : Bool)
    (o : JObj)
    (h : (lidarr_album_json env id_ rd qp mp mon am s).out = .ok o) :
    ∃ a qv mv, o = addFields a qv mv rd am s mon := by
  unfold lidarr_album_json at h
  split at h
  · simp at h
  · split at h
    · simp at h
    · split at h
      · simp at h
      · exact ⟨_, _, _, (Except.ok.inj h).symm⟩

theorem radarr_movie_json_ok_noId (env : RadarrEnv) (id_ : MovieId)
    (rd : String) (q : Int) (mon s : Bool) (t : Option Bool) (mj : JObj)
    (h : (radarr_movie_json env id_ rd q mon s t).out = .ok mj) :
    getKey mj "id" = none := by
  cases hsm : env.searchMovie (movieLookupTerm id_) with
  | nil => simp [radarr_movie_json, hsm] at h
  | cons movie rest =>
    rcases hT : getKey movie "title" with _ | vT <;>
    rcases hY : getKey movie "year" with _ | vY <;>
    rcases hI : getKey movie "tmdbId" with _ | vI <;>
    rcases hG : getKey movie "images" with _ | vG <;>
    rcases hS : getKey movie "titleSlug" with _ | vS <;>
    simp [radarr_movie_json, hsm, hT, hY, hI, hG, hS] at h
    subst h
    simp [getKey]

/-- C1 counterexample: the movie record POSTed by `add_movie` carries no
`id` field at all (it is built afresh from selected lookup fields), so
it is not "id set to zero" even though the lookup's first result has
`id = 7`. -/
theorem c1_counterexample :
    exOk (radarr_add_movie sampleRadarrEnv (MovieId.ofInt 5) "/movies" 1
      true true none).out = true
    ∧ postedKey (radarr_add_movie sampleRadarrEnv (MovieId.ofInt 5) "/movies"
        1 true true none) "id" = none
    ∧ postedKey (radarr_add_movie sampleRadarrEnv (MovieId.ofInt 5) "/movies"
        1 true true none) "id" ≠ some (JVal.jint 0) :=
  ⟨rfl, rfl, fun h => Option.noConfusion h⟩

/-- C1 amended: the record POSTed by `add_artist` / `add_album` always
has its `id` field overwritten to `0`, regardless of the id of the
lookup's first result; the record POSTed by `add_movie` is built afresh
and carries no `id` field at all (so no lookup id ever reaches the
creation POST in any of the three flows). -/
theorem c1_posted_id (env : LidarrEnv) (renv : RadarrEnv) (id_ rd : String)
    (qp mp : Option Int) (mon : Bool) (am : LidarrArtistMonitor) (s : Bool)
    (mid : MovieId) (rqp : Int) (msearch : Bool) (tmdb : Option Bool) :
    (exOk (lidarr_add_artist env id_ rd qp mp mon am s).out = true →
      postedKey (lidarr_add_artist env id_ rd qp mp mon am s) "id"
        = some (JVal.jint 0))
    ∧ (exOk (lidarr_add_album env id_ rd qp mp mon am s).out = true →
      postedKey (lidarr_add_album env id_ rd qp mp mon am s) "id"
        = some (JVal.jint 0))
    ∧ (exOk (radarr_add_movie renv mid rd rqp mon msearch tmdb).out = true →
      postedKey (radarr_add_movie renv mid rd rqp mon msearch tmdb) "id"
        = none) := by
  refine ⟨?_, ?_, ?_⟩
  · intro hok
    rcases ho : (lidarr_artist_json env id_ rd qp mp mon am s).out with e | o
    · simp [lidarr_add_artist, exOk, ho] at hok
    · obtain ⟨a, qv, mv, rfl⟩ :=
        lidarr_artist_json_ok_shape env id_ rd qp mp mon am s o ho
      simp [lidarr_add_artist, postedKey, ho, getKey_addFields_id]
  · intro hok
    rcases ho : (lidarr_album_json env id_ rd qp mp mon am s).out with e | o
    · simp [lidarr_add_album, exOk, ho] at hok
    · obtain ⟨a, qv, mv, rfl⟩ :=
        lidarr_album_json_ok_shape env id_ rd qp mp mon am s o ho
      simp [lidarr_add_album, postedKey, ho, getKey_addFields_id]
  · intro hok
    rcases ho : (radarr_movie_json renv mid rd rqp mon msearch none).out
        with e | mj
    · simp [radarr_add_movie, exOk, ho] at hok
    · have hid := radarr_movie_json_ok_noId renv mid rd rqp mon msearch none
        mj ho
      simp [radarr_add_movie, postedKey, ho, hid]

/-- C1 witness: concrete runs of the three add-flows. -/
theorem c1_witness :
    postedKey (lidarr_add_artist sampleLidarrEnv "mb" "/music" none none true
      LidarrArtistMonitor.allAlbums false) "id" = some (JVal.jint 0)
    ∧ postedKey (lidarr_add_album sampleLidarrEnv "mb" "/music" none none true
        LidarrArtistMonitor.allAlbums false) "id" = some (JVal.jint 0)
    ∧ postedKey (radarr_add_movie sampleRadarrEnv (MovieId.ofInt 5) "/movies"
        1 true true none) "id" = none := by
  have h := c1_posted_id sampleLidarrEnv sampleRadarrEnv "mb" "/music" none
    none true LidarrArtistMonitor.allAlbums false (MovieId.ofInt 5) 1 true none
  exact ⟨h.1 rfl, h.2.1 rfl, h.2.2 rfl⟩

/-- C2 counterexample: with profile ids supplied and an artist lookup
that returns no results, `add_artist` fails with an uncaught
`IndexError` (from indexing `[0]` into the empty lookup), not with the
distinguished record-not-found error the claim names. -/
theorem c2_counterexample :
    flowErr (lidarr_add_artist emptyLookupLidarrEnv "mb" "/music" (some 1)
      (some 1) true LidarrArtistMonitor.allAlbums false)
      = some PyarrErr.indexError
    ∧ errIsRecordNotFound PyarrErr.indexError = false :=
  ⟨rfl, rfl⟩

/-- C2 amended: when the lookup step returns an empty list, `add_movie`
raises the distinguished record-not-found error, while `add_artist` and
`add_album` (run with profile ids supplied, so the flow reaches the
lookup) raise an uncaught `IndexError` instead; in all three flows the
request trace stops at the lookup GET, so no POST is performed. -/
theorem c2_empty_lookup (env : LidarrEnv) (renv : RadarrEnv) (id_ rd : String)
    (q m : Int) (mon : Bool) (am : LidarrArtistMonitor) (s : Bool)
    (mid : MovieId) (rqp : Int) (msearch : Bool) (tmdb : Option Bool) :
    (env.searchArtist ("lidarr:" ++ id_) = [] →
      lidarr_add_artist env id_ rd (some q) (some m) mon am s
        = ⟨[lookupArtistReq ("lidarr:" ++ id_)], [], .error .indexError⟩)
    ∧ (env.searchAlbum ("lidarr:" ++ id_) = [] →
      lidarr_add_album env id_ rd (some q) (some m) mon am s
        = ⟨[lookupAlbumReq ("lidarr:" ++ id_)], [], .error .indexError⟩)
    ∧ (renv.searchMovie (movieLookupTerm mid) = [] →
      radarr_add_movie renv mid rd rqp mon msearch tmdb
        = ⟨[radarr_lookup_movie (movieLookupTerm mid)],
            (if tmdb = some true then [tmdbArgMsg] else []),
            .error (.recordNotFound "Movie Doesn't Exist")⟩) := by
  refine ⟨?_, ?_, ?_⟩ <;> intro h
  · simp [lidarr_add_artist, lidarr_artist_json, profileStep, h]
  · simp [lidarr_add_album, lidarr_album_json, profileStep, h]
  · simp [radarr_add_movie, radarr_movie_json, h]

/-- C2 witness: concrete empty-lookup runs of the three add-flows. -/
theorem c2_witness :
    lidarr_add_artist emptyLookupLidarrEnv "mb" "/music" (some 1) (some 1)
      true LidarrArtistMonitor.allAlbums false
      = ⟨[lookupArtistReq "lidarr:mb"], [], .error .indexError⟩
    ∧ lidarr_add_album emptyLookupLidarrEnv "mb" "/music" (some 1) (some 1)
        true LidarrArtistMonitor.allAlbums false
        = ⟨[lookupAlbumReq "lidarr:mb"], [], .error .indexError⟩
    ∧ radarr_add_movie emptyLookupRadarrEnv (MovieId.ofInt 5) "/movies" 1
        true true none
        = ⟨[radarr_lookup_movie "tmdb:5"], [],
            .error (.recordNotFound "Movie Doesn't Exist")⟩ := by
  have h := c2_empty_lookup emptyLookupLidarrEnv emptyLookupRadarrEnv "mb"
    "/music" 1 1 true LidarrArtistMonitor.allAlbums false (MovieId.ofInt 5)
    1 true none
  exact ⟨h.1 rfl, h.2.1 rfl, h.2.2 rfl⟩

/-- C7: when the caller omits a profile id, `add_artist` / `add_album`
default it to the id of the first configured profile of that kind; when
the corresponding profile list is empty they stop with the
missing-profile error after only the profile GET — no lookup and no POST
is issued. -/
theorem c7_profile_defaults (env : LidarrEnv) (id_ rd : String) (q m : Int)
    (mon : Bool) (am : LidarrArtistMonitor) (s : Bool)
    (p : JObj) (ps : List JObj) (v : JVal) :
    (env.qualityProfiles = [] →
      lidarr_add_artist env id_ rd none (some m) mon am s
        = ⟨[qualityProfileReq], [],
            .error (.missingProfile "There is no Quality Profile setup")⟩)
    ∧ (env.metadataProfiles = [] →
      lidarr_add_artist env id_ rd (some q) none mon am s
        = ⟨[metadataProfileReq], [],
            .error (.missingProfile "There is no Metadata Profile setup")⟩)
    ∧ (env.qualityProfiles = p :: ps → getKey p "id" = some v →
      exOk (lidarr_add_artist env id_ rd none (some m) mon am s).out = true →
      postedKey (lidarr_add_artist env id_ rd none (some m) mon am s)
        "qualityProfileId" = some v)
    ∧ (env.metadataProfiles = p :: ps → getKey p "id" = some v →
      exOk (lidarr_add_artist env id_ rd (some q) none mon am s).out = true →
      postedKey (lidarr_add_artist env id_ rd (some q) none mon am s)
        "metadataProfileId" = some v)
    ∧ (env.qualityProfiles = [] →
      lidarr_add_album env id_ rd none (some m) mon am s
        = ⟨[qualityProfileReq], [],
            .error (.missingProfile "There is no Quality Profile setup")⟩)
    ∧ (env.metadataProfiles = [] →
      lidarr_add_album env id_ rd (some q) none mon am s
        = ⟨[metadataProfileReq], [],
            .error (.missingProfile "There is no Metadata Profile setup")⟩)
    ∧ (env.qualityProfiles = p :: ps → getKey p "id" = some v →
      exOk (lidarr_add_album env id_ rd none (some m) mon am s).out = true →
      postedKey (lidarr_add_album env id_ rd none (some m) mon am s)
        "qualityProfileId" = some v)
    ∧ (env.metadataProfiles = p :: ps → getKey p "id" = some v →
      exOk (lidarr_add_album env id_ rd (some q) none mon am s).out = true →
      postedKey (lidarr_add_album env id_ rd (some q) none mon am s)
        "metadataProfileId" = some v) := by
  refine ⟨?_, ?_, ?_, ?_, ?_, ?_, ?_, ?_⟩
  · intro h
    simp [lidarr_add_artist, lidarr_artist_json, profileStep,
      defaultProfileId, h]
  · intro h
    simp [lidarr_add_artist, lidarr_artist_json, profileStep,
      defaultProfileId, h]
  · intro hp hv hok
    cases hs : env.searchArtist ("lidarr:" ++ id_) with
    | nil =>
      simp [lidarr_add_artist, lidarr_artist_json, profileStep,
        defaultProfileId, exOk, hp, hv, hs] at hok
    | cons a rest =>
      simp [lidarr_add_artist, lidarr_artist_json, profileStep,
        defaultProfileId, postedKey, hp, hv, hs, getKey_addFields_quality]
  · intro hp hv hok
    cases hs : env.searchArtist ("lidarr:" ++ id_) with
    | nil =>
      simp [lidarr_add_artist, lidarr_artist_json, profileStep,
        defaultProfileId, exOk, hp, hv, hs] at hok
    | cons a rest =>
      simp [lidarr_add_artist, lidarr_artist_json, profileStep,
        defaultProfileId, postedKey, hp, hv, hs, getKey_addFields_metadata]
  · intro h
    simp [lidarr_add_album, lidarr_album_json, profileStep,
      defaultProfileId, h]
  · intro h
    simp [lidarr_add_album, lidarr_album_json, profileStep,
      defaultProfileId, h]
  · intro hp hv hok
    cases hs : env.searchAlbum ("lidarr:" ++ id_) with
    | nil =>
      simp [lidarr_add_album, lidarr_album_json, profileStep,
        defaultProfileId, exOk, hp, hv, hs] at hok
    | cons a rest =>
      simp [lidarr_add_album, lidarr_album_json, profileStep,
        defaultProfileId, postedKey, hp, hv, hs, getKey_addFields_quality]
  · intro hp hv hok
    cases hs : env.searchAlbum ("lidarr:" ++ id_) with
    | nil =>
      simp [lidarr_add_album, lidarr_album_json, profileStep,
        defaultProfileId, exOk, hp, hv, hs] at hok
    | cons a rest =>
      simp [lidarr_add_album, lidarr_album_json, profileStep,
        defaultProfileId, postedKey, hp, hv, hs, getKey_addFields_metadata]

/-- C7 witness: concrete runs of the missing-profile and
profile-defaulting cases. -/
theorem c7_witness :
    lidarr_add_artist noQualityEnv "mb" "/music" none (some 1) true
      LidarrArtistMonitor.allAlbums false
      = ⟨[qualityProfileReq], [],
          .error (.missingProfile "There is no Quality Profile setup")⟩
    ∧ lidarr_add_artist noMetadataEnv "mb" "/music" (some 1) none true
        LidarrArtistMonitor.allAlbums false
        = ⟨[metadataProfileReq], [],
            .error (.missingProfile "There is no Metadata Profile setup")⟩
    ∧ postedKey (lidarr_add_artist sampleLidarrEnv "mb" "/music" none (some 1)
        true LidarrArtistMonitor.allAlbums false) "qualityProfileId"
        = some (JVal.jint 3)
    ∧ postedKey (lidarr_add_album sampleLidarrEnv "mb" "/music" (some 1) none
        true LidarrArtistMonitor.allAlbums false) "metadataProfileId"
        = some (JVal.jint 4) := by
  refine ⟨?_, ?_, ?_, ?_⟩
  · exact (c7_profile_defaults noQualityEnv "mb" "/music" 1 1 true
      LidarrArtistMonitor.allAlbums false [] [] JVal.jnull).1 rfl
  · exact (c7_profile_defaults noMetadataEnv "mb" "/music" 1 1 true
      LidarrArtistMonitor.allAlbums false [] [] JVal.jnull).2.1 rfl
  · exact (c7_profile_defaults sampleLidarrEnv "mb" "/music" 1 1 true
      LidarrArtistMonitor.allAlbums false [("id", JVal.jint 3)] []
      (JVal.jint 3)).2.2.1 rfl rfl rfl
  · exact (c7_profile_defaults sampleLidarrEnv "mb" "/music" 1 1 true
      LidarrArtistMonitor.allAlbums false [("id", JVal.jint 4)] []
      (JVal.jint 4)).2.2.2.2.2.2.2 rfl rfl rfl
